import Mathlib

/-!
Shallow embedding of the vehicle movement simulation (`app.js`).

The mutable globals of the script become the fields of `SimState`; each
event handler and the per-frame `animate` callback become explicit state
transformers. Clock reads (`performance.now()`) and the frame scheduler
are modelled as explicit inputs; code paths that would throw in
JavaScript return `none`. Numbers are rationals. The one function with
no exact rational embedding is `haversine` (sine, cosine, arctangent):
it is abstracted as a distance parameter `dist` of `animate`, and no
theorem below depends on its values.
-/

namespace VehicleSim

/-- A route waypoint as produced by `loadRoute` (app.js lines 92-96):
latitude, longitude, and an optional timestamp (milliseconds since the
epoch; `none` models a `null` timestamp). -/
structure Waypoint where
  lat : ℚ
  lng : ℚ
  timestamp : Option ℚ
deriving DecidableEq

/-- JS number coercion applied to timestamps by the subtraction
`segmentTo.timestamp - segmentFrom.timestamp` (app.js line 143): a
`Date` coerces to its millisecond value, `null` coerces to `0`. -/
def tsNum (t : Option ℚ) : ℚ := t.getD 0

/-- Truthiness of `segmentStartTime` as tested by `!segmentStartTime`
(app.js line 132): `null` and `0` are falsy, other numbers truthy. -/
def jsFalsyOpt (t : Option ℚ) : Bool :=
  match t with
  | none => true
  | some x => decide (x = 0)

/-- The timestamp display field: the placeholder dash or an ISO-rendered
instant. We keep the underlying millisecond value; the ISO-8601 string
rendering itself is presentation, outside the core. -/
inductive TsDisplay
  | dash
  | iso (ms : ℚ)
deriving DecidableEq

/-- The speed display field: the stationary placeholder dash written by
`updateInfo`, or a km/h reading. We keep the exact rational value; the
`toFixed(2)` rendering is presentation, outside the core. -/
inductive SpeedDisplay
  | unknown
  | kmh (v : ℚ)
deriving DecidableEq

/-- The mutable globals of app.js (lines 15-25) together with the
observable surface the engine writes: marker position, live trail,
button label, and the telemetry fields. `animRequest` records whether a
frame callback is currently pending. -/
structure SimState where
  route : List Waypoint
  index : ℕ
  playing : Bool
  speedMultiplier : ℚ
  animRequest : Bool
  segmentStartTime : Option ℚ
  segmentDuration : ℚ
  segmentFrom : Option Waypoint
  segmentTo : Option Waypoint
  startSimTime : Option ℚ
  liveTrail : List (ℚ × ℚ)
  markerPos : ℚ × ℚ
  btnText : String
  latV : ℚ
  lngV : ℚ
  timestampDisp : TsDisplay
  elapsedText : String
  speedDisp : SpeedDisplay
  progressText : String
deriving DecidableEq

/-- Left-pad a numeral string to two characters with zeros, as
`String(x).padStart(2, '0')` does (app.js line 46). -/
def pad2 (str : String) : String :=
  if str.length = 0 then "00"
  else if str.length = 1 then "0" ++ str
  else str

/-- `formatTime` (app.js lines 42-47): split a millisecond count into
`HH:MM:SS`. `Math.floor` is the integer floor; JS `%` is the remainder
of truncated division, `Int.tmod`. -/
def formatTime (ms : ℚ) : String :=
  let s := Int.tmod ⌊ms / 1000⌋ 60
  let m := Int.tmod ⌊ms / 60000⌋ 60
  let h := ⌊ms / 3600000⌋
  pad2 (toString h) ++ ":" ++ pad2 (toString m) ++ ":" ++ pad2 (toString s)

/-- The progress template shared by `animate` (app.js line 154) and
`updateInfo` (line 212). -/
def progressString (i n : ℕ) : String :=
  toString (i + 1) ++ " / " ++ toString n

/-- Timestamp display of a stationary waypoint (`updateInfo`, line 209):
the ISO rendering of its own timestamp, or the dash. -/
def tsDispOf (t : Option ℚ) : TsDisplay :=
  match t with
  | some x => TsDisplay.iso x
  | none => TsDisplay.dash

/-- `lerp` (app.js lines 61-63). -/
def lerp (a b t : ℚ) : ℚ := a + (b - a) * t

/-- The interpolation fraction of one tick (app.js lines 134-135):
`elapsed = now - segmentStartTime; t = Math.min(1, elapsed / segmentDuration)`.
There is no lower clamp in the source. -/
def tickFraction (now sst dur : ℚ) : ℚ :=
  min 1 ((now - sst) / dur)

/-- The segment speed expression (app.js line 145):
`segMs > 0 ? (segDist / (segMs / 1000)) * 3.6 : 0`. -/
def segSpeedOf (segDist segMs : ℚ) : ℚ :=
  if 0 < segMs then segDist / (segMs / 1000) * (36 / 10) else 0

/-- The effective segment start time used by a tick (app.js line 132):
a falsy stored value is replaced by the tick's own timestamp. -/
def tickSST (now : ℚ) (s0 : Option ℚ) : ℚ :=
  if jsFalsyOpt s0 then now else s0.getD 0

/-- `startSegment(i)` (app.js lines 110-127). At the last index or
beyond it only stops playback; otherwise it opens the segment
`i → i+1`: duration is the timestamp delta when both endpoints carry
timestamps (with 2000 substituted for a non-positive delta), otherwise
2000, in both cases divided by the speed multiplier. `now` stands for
the `performance.now()` read on line 118. -/
def startSegment (now : ℚ) (i : ℕ) (s : SimState) : SimState :=
  if h : i + 1 < s.route.length then
    let f := s.route.get ⟨i, Nat.lt_of_succ_lt h⟩
    let w := s.route.get ⟨i + 1, h⟩
    let dur :=
      match f.timestamp, w.timestamp with
      | some t1, some t2 =>
          (if t2 - t1 ≤ 0 then 2000 else t2 - t1) / s.speedMultiplier
      | _, _ => 2000 / s.speedMultiplier
    { s with segmentFrom := some f, segmentTo := some w,
             segmentStartTime := some now, segmentDuration := dur }
  else
    { s with playing := false, btnText := "Play" }

/-- `updateInfo(i)` (app.js lines 205-213): the stationary display for
waypoint `i`. Out of range it fails, as the JS would on `route[i].lat`. -/
def updateInfo (i : ℕ) (s : SimState) : Option SimState :=
  if h : i < s.route.length then
    let p := s.route.get ⟨i, h⟩
    some { s with latV := p.lat, lngV := p.lng,
                  timestampDisp := tsDispOf p.timestamp,
                  elapsedText := "00:00:00",
                  speedDisp := SpeedDisplay.unknown,
                  progressText := progressString i s.route.length }
  else none

/-- `resetSimulation` (app.js lines 195-203). With no route loaded it
fails, as the JS throws on `route[0].lat`. -/
def resetSimulation (s : SimState) : Option SimState :=
  let s1 : SimState :=
    { s with playing := false, animRequest := false, index := 0, liveTrail := [] }
  match s1.route with
  | [] => none
  | w :: _ =>
      (updateInfo 0 { s1 with markerPos := (w.lat, w.lng) }).map
        fun s2 => { s2 with btnText := "Play" }

/-- One tick of `animate(now)` (app.js lines 130-168). `dist` abstracts
the `haversine` great-circle distance (lines 49-59), which has no exact
rational embedding; the diagnostic `distM` of line 142 is computed by
the source and never used, so it is omitted. `pnow` stands for the
`performance.now()` read inside the nested `startSegment` call. A tick
while playing fails only if no segment endpoints are set (the JS would
throw on `segmentFrom.lat`). -/
def animate (dist : ℚ × ℚ → ℚ × ℚ → ℚ) (now pnow : ℚ) (s : SimState) :
    Option SimState :=
  if s.playing then
    match s.segmentFrom, s.segmentTo with
    | some f, some w =>
      let sst := tickSST now s.segmentStartTime
      let t := tickFraction now sst s.segmentDuration
      let lat := lerp f.lat w.lat t
      let lng := lerp f.lng w.lng t
      let segMs := tsNum w.timestamp - tsNum f.timestamp
      let segDist := dist (f.lat, f.lng) (w.lat, w.lng)
      let s1 : SimState :=
        { s with animRequest := false,
                 segmentStartTime := some sst,
                 markerPos := (lat, lng),
                 liveTrail := s.liveTrail ++ [(lat, lng)],
                 latV := lat, lngV := lng,
                 timestampDisp :=
                   match f.timestamp with
                   | some ft => TsDisplay.iso (ft + t * segMs)
                   | none => TsDisplay.dash,
                 elapsedText := formatTime (now - tsNum s.startSimTime),
                 speedDisp := SpeedDisplay.kmh (segSpeedOf segDist segMs),
                 progressText := progressString s.index s.route.length }
      if 1 ≤ t then
        let s2 : SimState := { s1 with index := s1.index + 1 }
        if s2.index < s2.route.length - 1 then
          some { startSegment pnow s2.index s2 with animRequest := true }
        else
          some { s2 with playing := false, btnText := "Play" }
      else
        some { s1 with animRequest := true }
    | _, _ => none
  else
    some { s with animRequest := false }

/-- The speed slider handler (app.js lines 188-191): store the slider
value as the multiplier (the `×` label is presentation). -/
def setSpeed (v : ℚ) (s : SimState) : SimState :=
  { s with speedMultiplier := v }

/-- The Play/Pause button handler (app.js lines 171-186). `now` is the
`performance.now()` of line 178 and `pnow` the one inside
`startSegment`. With no route loaded it returns unchanged. -/
def playPauseClick (now pnow : ℚ) (s : SimState) : Option SimState :=
  if s.route.length = 0 then some s
  else if s.playing then
    some { s with playing := false, btnText := "Play", animRequest := false }
  else
    (if s.route.length - 1 ≤ s.index then resetSimulation s else some s).bind
      fun s1 =>
        let s2 : SimState :=
          { s1 with playing := true, btnText := "Pause", startSimTime := some now }
        some { startSegment pnow s2.index s2 with animRequest := true }

/-- The initial global state of app.js (lines 15-25) with a given loaded
route: marker parked at the default map centre (line 66), no segment
open, multiplier 1, not playing. Used to build concrete states. -/
def mkState (r : List Waypoint) : SimState :=
  { route := r, index := 0, playing := false, speedMultiplier := 1,
    animRequest := false, segmentStartTime := none, segmentDuration := 2000,
    segmentFrom := none, segmentTo := none, startSimTime := none,
    liveTrail := [], markerPos := (17385044 / 1000000, 78486671 / 1000000),
    btnText := "Play", latV := 0, lngV := 0,
    timestampDisp := TsDisplay.dash, elapsedText := "",
    speedDisp := SpeedDisplay.unknown, progressText := "" }

/-- A computable stand-in used when the abstract distance parameter must
be instantiated at a concrete input (the real `haversine` is
transcendental): positive on distinct points, zero on equal ones. -/
def distStub (p q : ℚ × ℚ) : ℚ := |q.1 - p.1| + |q.2 - p.2|

/-! ### Helper lemmas -/

theorem startSegment_startSimTime (now : ℚ) (i : ℕ) (s : SimState) :
    (startSegment now i s).startSimTime = s.startSimTime := by
  unfold startSegment; split <;> rfl

theorem startSegment_speedMultiplier (now : ℚ) (i : ℕ) (s : SimState) :
    (startSegment now i s).speedMultiplier = s.speedMultiplier := by
  unfold startSegment; split <;> rfl

theorem startSegment_markerPos (now : ℚ) (i : ℕ) (s : SimState) :
    (startSegment now i s).markerPos = s.markerPos := by
  unfold startSegment; split <;> rfl

theorem startSegment_progressText (now : ℚ) (i : ℕ) (s : SimState) :
    (startSegment now i s).progressText = s.progressText := by
  unfold startSegment; split <;> rfl

theorem startSegment_speedDisp (now : ℚ) (i : ℕ) (s : SimState) :
    (startSegment now i s).speedDisp = s.speedDisp := by
  unfold startSegment; split <;> rfl

theorem startSegment_index (now : ℚ) (i : ℕ) (s : SimState) :
    (startSegment now i s).index = s.index := by
  unfold startSegment; split <;> rfl

/-- The full effect of a successful `resetSimulation` on a loaded route. -/
theorem resetSimulation_cons (s : SimState) (w : Waypoint) (rest : List Waypoint)
    (h : s.route = w :: rest) :
    resetSimulation s = some
      { s with playing := false, animRequest := false, index := 0,
               liveTrail := [], markerPos := (w.lat, w.lng),
               latV := w.lat, lngV := w.lng,
               timestampDisp := tsDispOf w.timestamp,
               elapsedText := "00:00:00",
               speedDisp := SpeedDisplay.unknown,
               progressText := progressString 0 s.route.length,
               btnText := "Play" } := by
  obtain ⟨r, i0, pl, m, ar, sst, dur, sf, st, sim, lt0, mp, bt, la, ln, td, et, sd, pt⟩ := s
  obtain rfl : r = w :: rest := h
  simp [resetSimulation, updateInfo]

/-! ### C1 -/

/-- C1: opening the segment `i → i+1` at multiplier `m > 0` gives
duration `(t2 - t1) / m` when both timestamps are present with positive
difference, `2000 / m` in every other case, and the duration is strictly
positive in both cases. -/
theorem c1_segment_duration (now : ℚ) (i : ℕ) (s : SimState)
    (h : i + 1 < s.route.length) (hm : 0 < s.speedMultiplier) :
    0 < (startSegment now i s).segmentDuration
    ∧ (∀ t1 t2,
        (s.route.get ⟨i, Nat.lt_of_succ_lt h⟩).timestamp = some t1 →
        (s.route.get ⟨i + 1, h⟩).timestamp = some t2 →
        0 < t2 - t1 →
        (startSegment now i s).segmentDuration = (t2 - t1) / s.speedMultiplier)
    ∧ ((¬ ∃ t1 t2,
          (s.route.get ⟨i, Nat.lt_of_succ_lt h⟩).timestamp = some t1 ∧
          (s.route.get ⟨i + 1, h⟩).timestamp = some t2 ∧
          0 < t2 - t1) →
        (startSegment now i s).segmentDuration = 2000 / s.speedMultiplier) := by
  unfold startSegment
  rw [dif_pos h]
  dsimp only
  rcases hf : (s.route.get ⟨i, Nat.lt_of_succ_lt h⟩).timestamp with _ | t1 <;>
    rcases hw : (s.route.get ⟨i + 1, h⟩).timestamp with _ | t2
  · exact ⟨div_pos (by norm_num) hm, fun _ _ hc => Option.noConfusion hc,
      fun _ => rfl⟩
  · exact ⟨div_pos (by norm_num) hm, fun _ _ hc => Option.noConfusion hc,
      fun _ => rfl⟩
  · exact ⟨div_pos (by norm_num) hm, fun _ _ _ hc => Option.noConfusion hc,
      fun _ => rfl⟩
  · refine ⟨?_, ?_, ?_⟩
    · show 0 < (if t2 - t1 ≤ 0 then 2000 else t2 - t1) / s.speedMultiplier
      rcases le_or_lt (t2 - t1) 0 with hdt | hdt
      · rw [if_pos hdt]; exact div_pos (by norm_num) hm
      · rw [if_neg (not_le.mpr hdt)]; exact div_pos hdt hm
    · intro a b ha hb hab
      rw [Option.some_inj] at ha hb
      subst ha; subst hb
      show (if t2 - t1 ≤ 0 then 2000 else t2 - t1) / s.speedMultiplier
          = (t2 - t1) / s.speedMultiplier
      rw [if_neg (not_le.mpr hab)]
    · intro hno
      show (if t2 - t1 ≤ 0 then 2000 else t2 - t1) / s.speedMultiplier
          = 2000 / s.speedMultiplier
      rcases le_or_lt (t2 - t1) 0 with hdt | hdt
      · rw [if_pos hdt]
      · exact absurd ⟨t1, t2, rfl, rfl, hdt⟩ hno

/-- Witness for C1 at a concrete two-waypoint route with timestamps 0 and
1000 and multiplier 1. -/
theorem c1_segment_duration_witness :
    0 < (startSegment 0 0 (mkState [⟨0, 0, some 0⟩, ⟨1, 1, some 1000⟩])).segmentDuration
    ∧ (startSegment 0 0 (mkState [⟨0, 0, some 0⟩, ⟨1, 1, some 1000⟩])).segmentDuration
        = (1000 - 0) / (mkState [⟨0, 0, some 0⟩, ⟨1, 1, some 1000⟩]).speedMultiplier := by
  have h := c1_segment_duration 0 0 (mkState [⟨0, 0, some 0⟩, ⟨1, 1, some 1000⟩])
    (by decide) (by decide)
  exact ⟨h.1, h.2.1 0 1000 rfl rfl (by norm_num)⟩

/-! ### Concrete fixtures for witnesses and counterexamples -/

/-- A waypoint without a timestamp at the origin. -/
def wA : Waypoint := ⟨0, 0, none⟩

/-- A waypoint without a timestamp at (1, 1). -/
def wB : Waypoint := ⟨1, 1, none⟩

/-- A timestamped waypoint at the origin, timestamp 0 ms. -/
def wT0 : Waypoint := ⟨0, 0, some 0⟩

/-- A timestamped waypoint at (1, 1), timestamp 1000 ms. -/
def wT1 : Waypoint := ⟨1, 1, some 1000⟩

/-- A playing state with an open segment, as `play()` leaves it right
after `startSegment` succeeded: used to instantiate tick theorems. -/
def openState (f w : Waypoint) (r : List Waypoint) (sst dur : ℚ) : SimState :=
  { mkState r with playing := true, segmentFrom := some f, segmentTo := some w,
                   segmentStartTime := some sst, segmentDuration := dur }

/-- A state paused mid-route within a play cycle: the session anchor
`startSimTime` was set (to 5000) when the cycle began, the current
segment is still index 0 of a two-waypoint route. -/
def pausedState : SimState :=
  { openState wA wB [wA, wB] 1000 2000 with playing := false,
                                            startSimTime := some 5000 }

/-! ### The observable fields of one tick on an open segment -/

/-- On a playing state with an open segment, one tick computes the
marker position by `lerp` at the tick fraction, displays the progress of
the pre-tick index, and displays the segment speed derived from the raw
timestamp delta. -/
theorem animate_open_fields (dist : ℚ × ℚ → ℚ × ℚ → ℚ) (now pnow : ℚ)
    (s : SimState) (f w : Waypoint) (hp : s.playing = true)
    (hf : s.segmentFrom = some f) (ht : s.segmentTo = some w) :
    (animate dist now pnow s).map SimState.markerPos
        = some (lerp f.lat w.lat
                  (tickFraction now (tickSST now s.segmentStartTime) s.segmentDuration),
                lerp f.lng w.lng
                  (tickFraction now (tickSST now s.segmentStartTime) s.segmentDuration))
    ∧ (animate dist now pnow s).map SimState.progressText
        = some (progressString s.index s.route.length)
    ∧ (animate dist now pnow s).map SimState.speedDisp
        = some (SpeedDisplay.kmh (segSpeedOf (dist (f.lat, f.lng) (w.lat, w.lng))
            (tsNum w.timestamp - tsNum f.timestamp))) := by
  unfold animate
  simp only [hp, hf, ht]
  refine ⟨?_, ?_, ?_⟩ <;>
    · dsimp only
      split_ifs <;>
        simp [startSegment_markerPos, startSegment_progressText,
          startSegment_speedDisp, startSegment_index]

/-! ### C2 -/

/-- C2: for every tick on an open segment the interpolated position is
`(lerp lat1 lat2 t, lerp lng1 lng2 t)` at the tick fraction `t`; `lerp`
is the straight-line (affine) interpolation, returning the start
waypoint exactly at `t = 0` and the end waypoint exactly at `t = 1`. -/
theorem c2_tick_interpolation (dist : ℚ × ℚ → ℚ × ℚ → ℚ) (now pnow : ℚ)
    (s : SimState) (f w : Waypoint) (st : ℚ) (hp : s.playing = true)
    (hf : s.segmentFrom = some f) (ht : s.segmentTo = some w)
    (hst : s.segmentStartTime = some st) (hz : st ≠ 0) :
    ((animate dist now pnow s).map SimState.markerPos
        = some (lerp f.lat w.lat (tickFraction now st s.segmentDuration),
                lerp f.lng w.lng (tickFraction now st s.segmentDuration)))
    ∧ (∀ a b t, lerp a b t = (1 - t) * a + t * b)
    ∧ (∀ a b, lerp a b 0 = a)
    ∧ (∀ a b, lerp a b 1 = b) := by
  have hsst : tickSST now s.segmentStartTime = st := by
    simp [tickSST, hst, jsFalsyOpt, hz]
  have hmain := (animate_open_fields dist now pnow s f w hp hf ht).1
  rw [hsst] at hmain
  refine ⟨hmain, ?_, ?_, ?_⟩ <;> intros <;> unfold lerp <;> ring

/-- Witness for C2: a concrete tick a quarter of the way through a
segment from (0,0) to (1,1). -/
theorem c2_tick_interpolation_witness :
    (animate distStub 1500 1501 (openState wA wB [wA, wB] 1000 2000)).map
        SimState.markerPos
      = some (lerp 0 1 (tickFraction 1500 1000 2000),
              lerp 0 1 (tickFraction 1500 1000 2000)) :=
  (c2_tick_interpolation distStub 1500 1501 (openState wA wB [wA, wB] 1000 2000)
    wA wB 1000 rfl rfl rfl rfl (by norm_num)).1

/-! ### C3 -/

unseal Rat.add Rat.sub Rat.mul Rat.inv in
/-- C3 counterexample: on a two-waypoint route, the tick that reaches
the final waypoint leaves the state at the final index (1 of 2, playing
stopped) while the displayed progress is "1 / 2", not "2 / 2": the
display is written before the index advances, and no further tick runs. -/
theorem c3_progress_counterexample :
    (animate distStub 3000 3001 (openState wA wB [wA, wB] 1000 2000)).map
        SimState.progressText = some "1 / 2"
    ∧ (animate distStub 3000 3001 (openState wA wB [wA, wB] 1000 2000)).map
        SimState.index = some 1
    ∧ (animate distStub 3000 3001 (openState wA wB [wA, wB] 1000 2000)).map
        SimState.playing = some false
    ∧ (openState wA wB [wA, wB] 1000 2000).route.length = 2
    ∧ "1 / 2" ≠ "2 / 2" := by
  refine ⟨?_, ?_, ?_, ?_, ?_⟩ <;> decide

/-- C3 amended: every tick displays the progress string
`(i+1) / n` for the index `i` current when the tick began (before any
advancement inside the tick), and the stationary display for index `i`
is `(i+1) / n`; at the tick that reaches the final waypoint the last
displayed progress is therefore `(n-1) / n`, not `n / n`. -/
theorem c3_progress_amended :
    (∀ (dist : ℚ × ℚ → ℚ × ℚ → ℚ) (now pnow : ℚ) (s : SimState) (f w : Waypoint),
        s.playing = true → s.segmentFrom = some f → s.segmentTo = some w →
        (animate dist now pnow s).map SimState.progressText
          = some (progressString s.index s.route.length))
    ∧ (∀ (i : ℕ) (s s' : SimState), updateInfo i s = some s' →
        s'.progressText = progressString i s.route.length) := by
  constructor
  · intro dist now pnow s f w hp hf ht
    exact (animate_open_fields dist now pnow s f w hp hf ht).2.1
  · intro i s s' hu
    unfold updateInfo at hu
    split at hu
    · obtain rfl := Option.some_inj.mp hu
      rfl
    · exact Option.noConfusion hu

/-- Witness for the amended C3: a mid-segment tick on index 0 of a
two-waypoint route displays "1 / 2", and the stationary display of
waypoint 0 of that route is also "1 / 2". -/
theorem c3_progress_amended_witness :
    (animate distStub 1500 1501 (openState wA wB [wA, wB] 1000 2000)).map
        SimState.progressText = some (progressString 0 2)
    ∧ ∃ s', updateInfo 0 (mkState [wA, wB]) = some s'
        ∧ s'.progressText = progressString 0 2 := by
  constructor
  · exact c3_progress_amended.1 distStub 1500 1501
      (openState wA wB [wA, wB] 1000 2000) wA wB rfl rfl rfl
  · rcases hh : updateInfo 0 (mkState [wA, wB]) with _ | s'
    · exact absurd hh (by decide)
    · exact ⟨s', rfl, c3_progress_amended.2 0 (mkState [wA, wB]) s' hh⟩

/-! ### C4 -/

unseal Rat.add Rat.sub Rat.mul Rat.inv in
/-- C4 counterexample: resuming from a paused state whose session anchor
was 5000 re-anchors `startSimTime` to the clock value of the new play()
call (9000); the anchor set when the play cycle began is discarded. -/
theorem c4_resume_counterexample :
    pausedState.playing = false
    ∧ pausedState.index = 0
    ∧ pausedState.startSimTime = some 5000
    ∧ (playPauseClick 9000 9001 pausedState).map SimState.startSimTime
        = some (some 9000)
    ∧ some (5000 : ℚ) ≠ some (9000 : ℚ) := by
  refine ⟨rfl, rfl, rfl, ?_, by decide⟩
  decide

/-- C4 amended: every play() invocation that starts playback (including
a resume from Paused in the same play cycle) re-anchors the session
start reference to the invocation's clock value, so the session elapsed
time restarts from zero at each resume. -/
theorem c4_resume_amended (now pnow : ℚ) (s : SimState)
    (hne : s.route.length ≠ 0) (hp : s.playing = false) :
    (playPauseClick now pnow s).map SimState.startSimTime = some (some now) := by
  obtain ⟨w, rest, hwr⟩ : ∃ w rest, s.route = w :: rest := by
    cases hr : s.route with
    | nil => exact absurd (by rw [hr]; rfl) hne
    | cons a l => exact ⟨a, l, rfl⟩
  unfold playPauseClick
  rw [if_neg hne, hp]
  by_cases hi : s.route.length - 1 ≤ s.index
  · rw [if_pos hi, resetSimulation_cons s w rest hwr]
    simp [startSegment_startSimTime]
  · rw [if_neg hi]
    simp [startSegment_startSimTime]

/-- Witness for the amended C4: pressing play at clock 9000 on the
concrete paused state anchors the session start to 9000. -/
theorem c4_resume_amended_witness :
    (playPauseClick 9000 9001 pausedState).map SimState.startSimTime
      = some (some 9000) :=
  c4_resume_amended 9000 9001 pausedState (by decide) rfl

/-! ### C5 -/

unseal Rat.add Rat.sub Rat.mul Rat.inv in
/-- C5 counterexample: with the segment opened at 4000 and duration
2000, a tick at clock 2000 computes fraction `min 1 (-1) = -1`, outside
`[0, 1]`, and different from the two-sided clamp the claim states; the
marker is accordingly placed at (-1, -1), behind the segment start. -/
theorem c5_fraction_counterexample :
    tickFraction 2000 4000 2000 = -1
    ∧ ¬ (0 ≤ tickFraction 2000 4000 2000)
    ∧ max 0 (min 1 ((2000 - 4000) / 2000 : ℚ)) = 0
    ∧ tickFraction 2000 4000 2000 ≠ max 0 (min 1 ((2000 - 4000) / 2000 : ℚ))
    ∧ (animate distStub 2000 2001 (openState wA wB [wA, wB] 4000 2000)).map
        SimState.markerPos = some (-1, -1) := by
  refine ⟨by decide, by decide, by decide, by decide, by decide⟩

/-- C5 amended: the tick fraction is `min 1 ((now - segmentStartTime) /
segmentDuration)` with no lower clamp; it lies in `[0, 1]` for every
tick whose clock value is at or after the segment start time (given a
positive duration), but not for clocks before the segment start. -/
theorem c5_fraction_amended (now sst dur : ℚ) (h1 : sst ≤ now) (h2 : 0 < dur) :
    0 ≤ tickFraction now sst dur
    ∧ tickFraction now sst dur ≤ 1
    ∧ tickFraction now sst dur = min 1 ((now - sst) / dur) := by
  refine ⟨?_, min_le_left _ _, rfl⟩
  exact le_min (by norm_num) (div_nonneg (by linarith) h2.le)

/-- Witness for the amended C5 at clock 1500, segment start 1000,
duration 2000. -/
theorem c5_fraction_amended_witness :
    0 ≤ tickFraction 1500 1000 2000
    ∧ tickFraction 1500 1000 2000 ≤ 1
    ∧ tickFraction 1500 1000 2000 = min 1 ((1500 - 1000) / 2000 : ℚ) :=
  c5_fraction_amended 1500 1000 2000 (by norm_num) (by norm_num)

/-! ### C6 -/

unseal Rat.add Rat.sub Rat.mul Rat.inv in
/-- C6 counterexample: on a segment whose endpoints carry no timestamps,
the tick emits speed 0, while the fallback-duration-derived speed of the
claim (distance over the 2000 ms fallback, times 3.6) is 18/5 for a
stand-in distance of 2: the fallback duration is not used for speed. -/
theorem c6_speed_counterexample :
    (animate distStub 1500 1501 (openState wA wB [wA, wB] 1000 2000)).map
        SimState.speedDisp = some (SpeedDisplay.kmh 0)
    ∧ distStub (0, 0) (1, 1) = 2
    ∧ segSpeedOf (distStub (0, 0) (1, 1)) 2000 = 18 / 5
    ∧ SpeedDisplay.kmh 0 ≠ SpeedDisplay.kmh (18 / 5) := by
  refine ⟨by decide, by decide, by decide, by decide⟩

/-- C6 amended: the emitted speed is `segDist / (segMs / 1000) * 3.6`
when the raw timestamp delta `segMs` is positive, and 0 when the delta
is non-positive (including missing timestamps, whose JS coercion makes
the delta non-positive or meaningless); it never depends on the tick
time, so it is constant across all ticks of a segment, and it is never
negative for a non-negative distance. -/
theorem c6_speed_amended :
    (∀ (dist : ℚ × ℚ → ℚ × ℚ → ℚ) (now pnow : ℚ) (s : SimState) (f w : Waypoint),
        s.playing = true → s.segmentFrom = some f → s.segmentTo = some w →
        (animate dist now pnow s).map SimState.speedDisp
          = some (SpeedDisplay.kmh (segSpeedOf (dist (f.lat, f.lng) (w.lat, w.lng))
              (tsNum w.timestamp - tsNum f.timestamp))))
    ∧ (∀ d ms, 0 < ms → segSpeedOf d ms = d / (ms / 1000) * (36 / 10))
    ∧ (∀ d ms, ms ≤ 0 → segSpeedOf d ms = 0)
    ∧ (∀ d ms, 0 ≤ d → 0 ≤ segSpeedOf d ms)
    ∧ (∀ (dist : ℚ × ℚ → ℚ × ℚ → ℚ) (now1 pnow1 now2 pnow2 : ℚ) (s : SimState),
        (animate dist now1 pnow1 s).map SimState.speedDisp
          = (animate dist now2 pnow2 s).map SimState.speedDisp) := by
  refine ⟨?_, ?_, ?_, ?_, ?_⟩
  · intro dist now pnow s f w hp hf ht
    exact (animate_open_fields dist now pnow s f w hp hf ht).2.2
  · intro d ms h
    unfold segSpeedOf
    rw [if_pos h]
  · intro d ms h
    unfold segSpeedOf
    rw [if_neg (not_lt.mpr h)]
  · intro d ms hd
    unfold segSpeedOf
    split_ifs with h
    · positivity
    · exact le_refl 0
  · intro dist now1 pnow1 now2 pnow2 s
    cases hp : s.playing with
    | false => simp [animate, hp]
    | true =>
      rcases hsf : s.segmentFrom with _ | f
      · simp [animate, hp, hsf]
      · rcases hst2 : s.segmentTo with _ | w
        · simp [animate, hp, hsf, hst2]
        · rw [(animate_open_fields dist now1 pnow1 s f w hp hsf hst2).2.2,
              (animate_open_fields dist now2 pnow2 s f w hp hsf hst2).2.2]

unseal Rat.add Rat.sub Rat.mul Rat.inv in
/-- Witness for the amended C6: a tick on a timestamped segment
(0 ms to 1000 ms, stand-in distance 2) emits 2 / 1 * 3.6 = 36/5 km/h. -/
theorem c6_speed_amended_witness :
    (animate distStub 1500 1501 (openState wT0 wT1 [wT0, wT1] 1000 2000)).map
        SimState.speedDisp = some (SpeedDisplay.kmh (36 / 5)) := by
  have h := c6_speed_amended.1 distStub 1500 1501
      (openState wT0 wT1 [wT0, wT1] 1000 2000) wT0 wT1 rfl rfl rfl
  rw [h]
  decide

/-! ### C7 -/

/-- C7: from every state with a loaded route, reset() stops ticking
(playing false, pending frame cancelled), sets the index to 0, empties
the live trail, snaps the marker to waypoint 0, and writes the
stationary display: elapsed "00:00:00" and the unknown-speed
placeholder. -/
theorem c7_reset (s : SimState) (w : Waypoint) (rest : List Waypoint)
    (h : s.route = w :: rest) :
    ∃ s', resetSimulation s = some s'
      ∧ s'.playing = false
      ∧ s'.animRequest = false
      ∧ s'.index = 0
      ∧ s'.liveTrail = []
      ∧ s'.markerPos = (w.lat, w.lng)
      ∧ s'.elapsedText = "00:00:00"
      ∧ s'.speedDisp = SpeedDisplay.unknown :=
  ⟨_, resetSimulation_cons s w rest h, rfl, rfl, rfl, rfl, rfl, rfl, rfl⟩

/-- Witness for C7 on a concrete playing state mid-segment. -/
theorem c7_reset_witness :
    ∃ s', resetSimulation (openState wT0 wT1 [wT0, wT1] 1000 2000) = some s'
      ∧ s'.playing = false
      ∧ s'.animRequest = false
      ∧ s'.index = 0
      ∧ s'.liveTrail = []
      ∧ s'.markerPos = (wT0.lat, wT0.lng)
      ∧ s'.elapsedText = "00:00:00"
      ∧ s'.speedDisp = SpeedDisplay.unknown :=
  c7_reset (openState wT0 wT1 [wT0, wT1] 1000 2000) wT0 [wT1] rfl

/-! ### C8 -/

/-- C8 counterexample: with no route loaded, reset() fails (the source
throws reading `route[0].lat`) instead of being silently ignored, and
set-speed still mutates the multiplier (2 ≠ the prior 1) instead of
leaving state unchanged. -/
theorem c8_noroute_counterexample :
    resetSimulation (mkState []) = none
    ∧ (mkState []).speedMultiplier = 1
    ∧ (setSpeed 2 (mkState [])).speedMultiplier = 2
    ∧ (2 : ℚ) ≠ 1 := by
  refine ⟨rfl, rfl, rfl, by norm_num⟩

/-- C8 amended: with no route loaded, play and pause are silently
ignored no-ops; set-speed is not ignored (it still updates the
multiplier); and reset is not a safe no-op: it fails when it reads
waypoint 0 of the empty route. -/
theorem c8_noroute_amended (now pnow v : ℚ) (s : SimState) (h : s.route = []) :
    playPauseClick now pnow s = some s
    ∧ resetSimulation s = none
    ∧ (setSpeed v s).speedMultiplier = v := by
  obtain ⟨r, i0, pl, m, ar, sst, dur, sf, st, sim, lt0, mp, bt, la, ln, td, et,
    sd, pt⟩ := s
  obtain rfl : r = [] := h
  exact ⟨rfl, rfl, rfl⟩

/-- Witness for the amended C8 on the empty-route initial state. -/
theorem c8_noroute_amended_witness :
    playPauseClick 1 2 (mkState []) = some (mkState [])
    ∧ resetSimulation (mkState []) = none
    ∧ (setSpeed 2 (mkState [])).speedMultiplier = 2 :=
  c8_noroute_amended 1 2 2 (mkState []) rfl

/-! ### C9 -/

/-- C9: on a route with exactly one waypoint, play() does not fail: it
leaves the state stationary (not playing, index 0, button back to
"Play"), opens no segment (the segment endpoints are untouched), and
the displayed progress is "1 / 1". -/
theorem c9_single_waypoint (now pnow : ℚ) (s : SimState) (w : Waypoint)
    (h : s.route = [w]) (hp : s.playing = false) :
    ∃ s', playPauseClick now pnow s = some s'
      ∧ s'.playing = false
      ∧ s'.segmentFrom = s.segmentFrom
      ∧ s'.segmentTo = s.segmentTo
      ∧ s'.index = 0
      ∧ s'.progressText = "1 / 1"
      ∧ s'.btnText = "Play" := by
  obtain ⟨r, i0, pl, m, ar, sst, dur, sf, st, sim, lt0, mp, bt, la, ln, td, et,
    sd, pt⟩ := s
  obtain rfl : r = [w] := h
  obtain rfl : pl = false := hp
  have hi : List.length [w] - 1 ≤ i0 := by simp
  unfold playPauseClick
  rw [if_pos hi]
  refine ⟨_, rfl, rfl, rfl, rfl, rfl, ?_, rfl⟩
  show progressString 0 (List.length [w]) = "1 / 1"
  have hl : List.length [w] = 1 := rfl
  rw [hl]
  rfl

/-- Witness for C9 on the freshly loaded single-waypoint route. -/
theorem c9_single_waypoint_witness :
    ∃ s', playPauseClick 100 101 (mkState [wT0]) = some s'
      ∧ s'.playing = false
      ∧ s'.segmentFrom = (mkState [wT0]).segmentFrom
      ∧ s'.segmentTo = (mkState [wT0]).segmentTo
      ∧ s'.index = 0
      ∧ s'.progressText = "1 / 1"
      ∧ s'.btnText = "Play" :=
  c9_single_waypoint 100 101 (mkState [wT0]) wT0 rfl rfl

/-! ### C10 -/

/-- C10: reset() leaves the speed multiplier unchanged, so segments
opened after a reset still use the previously chosen speed. -/
theorem c10_reset_multiplier (s s₁ : SimState)
    (h : resetSimulation s = some s₁) :
    s₁.speedMultiplier = s.speedMultiplier := by
  obtain ⟨r, i0, pl, m, ar, sst, dur, sf, st, sim, lt0, mp, bt, la, ln, td, et,
    sd, pt⟩ := s
  cases r with
  | nil => exact Option.noConfusion h
  | cons a l =>
    rw [resetSimulation_cons _ a l rfl] at h
    obtain rfl := Option.some_inj.mp h
    rfl

/-- Witness for C10: resetting a state whose multiplier is 5 keeps the
multiplier at 5. -/
theorem c10_reset_multiplier_witness :
    ∃ s₁, resetSimulation { mkState [wT0] with speedMultiplier := 5 } = some s₁
      ∧ s₁.speedMultiplier
          = { mkState [wT0] with speedMultiplier := 5 }.speedMultiplier := by
  rcases hh : resetSimulation { mkState [wT0] with speedMultiplier := 5 } with _ | s₁
  · exact absurd hh (by decide)
  · exact ⟨s₁, rfl, c10_reset_multiplier _ s₁ hh⟩

end VehicleSim
